import Mathlib

/-!
Verification of the nccl_harness repository: a shallow embedding of the
output parser (src/parse.rs), the run wrapper (src/wrapper.rs), the
permutation generator and run/manifest loop (src/main.rs), and the naming
helpers (src/util.rs), together with theorems settling the specification
claims about them.
-/

namespace NcclHarness

/-! ## Basic string machinery

Rust `str::split_whitespace` yields the maximal nonempty runs of
non-whitespace characters.  We model it with an accumulator-based
structural recursion over the character list (`Char.isWhitespace`
covers space, tab, CR, LF, matching the ASCII whitespace relevant to
benchmark output). -/

/-- Accumulator-based whitespace splitter: `acc` holds the (reversed)
characters of the token currently being read. -/
def splitWsAux : List Char → List Char → List (List Char)
  | [], acc => if acc.isEmpty then [] else [acc.reverse]
  | c :: cs, acc =>
    if c.isWhitespace then
      if acc.isEmpty then splitWsAux cs []
      else acc.reverse :: splitWsAux cs []
    else splitWsAux cs (c :: acc)

/-- Model of Rust `split_whitespace`: maximal nonempty runs of
non-whitespace characters, as strings. -/
def splitWs (s : String) : List String :=
  (splitWsAux s.data []).map String.mk

/-- Numeric value of a digit list, most significant first (the usual
accumulator fold used by string-to-integer conversions). -/
def natOfDigits (ds : List Char) : Nat :=
  ds.foldl (fun a c => a * 10 + (c.toNat - 48)) 0

/-! ## Field decoders

Models of Rust `str::parse::<u64>`, `parse::<i64>` and `parse::<f64>`
as used by `parse_line` in src/parse.rs.  Machine integers are modelled
as `Nat`/`Int` with the explicit range checks that `FromStr` performs
(overflow is a parse error for integers).  For `f64` we model the
accepted grammar exactly and the numeric value as an exact rational;
the source never does float arithmetic, so rounding plays no role in
any claim. -/

/-- Model of Rust `"...".parse::<u64>()`: optional leading plus sign,
then a nonempty digit string; a minus sign or any other character is an
invalid digit, and values of `2^64` or more overflow. -/
def decodeU64 (s : String) : Option Nat :=
  match s.data with
  | [] => none
  | c :: cs =>
    let ds := if c = '+' then cs else c :: cs
    if ds.isEmpty then none
    else if ds.all Char.isDigit then
      let n := natOfDigits ds
      if n < 2 ^ 64 then some n else none
    else none

/-- Model of Rust `"...".parse::<i64>()`: optional sign, nonempty digit
string, value within `[-2^63, 2^63)`. -/
def decodeI64 (s : String) : Option Int :=
  match s.data with
  | [] => none
  | c :: cs =>
    let (neg, ds) :=
      if c = '-' then (true, cs)
      else if c = '+' then (false, cs)
      else (false, c :: cs)
    if ds.isEmpty then none
    else if ds.all Char.isDigit then
      let n : Int := natOfDigits ds
      let v : Int := if neg then -n else n
      if -(2 ^ 63) ≤ v ∧ v < 2 ^ 63 then some v else none
    else none

/-- Canonical decimal value `(-1)^neg * mant * 10^exp`, with `mant`
never divisible by ten (and zero stored as positive `0 * 10^0`,
matching the IEEE identification of positive and negative zero).  Two
decimals are numerically equal exactly when their canonical forms
coincide, so derived structural equality is value equality. -/
structure Dec where
  neg : Bool
  mant : Nat
  exp : Int
deriving DecidableEq

/-- Strip factors of ten from the significand (fuel-driven so it stays
a structural recursion; the initial significand always suffices as
fuel). -/
def normDecAux : Nat → Nat → Int → Nat × Int
  | 0, m, e => (m, e)
  | fuel + 1, m, e =>
    if m % 10 = 0 ∧ m ≠ 0 then normDecAux fuel (m / 10) (e + 1)
    else (m, e)

/-- Canonicalize a sign/significand/exponent triple. -/
def Dec.norm (neg : Bool) (m : Nat) (e : Int) : Dec :=
  if m = 0 then ⟨false, 0, 0⟩
  else
    let r := normDecAux m m e
    ⟨neg, r.1, r.2⟩

/-- Values produced by the `f64` decoder: a finite value carried as an
exact decimal, the two infinities, or NaN.  The harness never computes
with these fields, so the exact-decimal model (no rounding to binary64,
no overflow to infinity) preserves exactly the behaviour the claims
depend on: which strings decode successfully. -/
inductive F64 where
  | finite : Dec → F64
  | posInf : F64
  | negInf : F64
  | nan : F64
deriving DecidableEq

/-- Numeric value of a decimal literal with integer digits, fraction
digits and a decimal exponent. -/
def mkF64 (neg : Bool) (intDs fracDs : List Char) (exp : Int) : F64 :=
  .finite (Dec.norm neg (natOfDigits (intDs ++ fracDs))
    (exp - (fracDs.length : Int)))

/-- Decimal part of the `f64` grammar: `digits [. digits] [(e|E) [sign] digits]`
with at least one digit before the exponent marker. -/
def decodeDecimal (neg : Bool) (cs : List Char) : Option F64 :=
  let intDigits := cs.takeWhile Char.isDigit
  let rest1 := cs.dropWhile Char.isDigit
  let fracDigits :=
    match rest1 with
    | '.' :: r => r.takeWhile Char.isDigit
    | _ => []
  let rest2 :=
    match rest1 with
    | '.' :: r => r.dropWhile Char.isDigit
    | _ => rest1
  if intDigits.length + fracDigits.length = 0 then none
  else
    match rest2 with
    | [] => some (mkF64 neg intDigits fracDigits 0)
    | e :: r =>
      if e = 'e' ∨ e = 'E' then
        let (eneg, r2) :=
          match r with
          | '-' :: rr => (true, rr)
          | '+' :: rr => (false, rr)
          | _ => (false, r)
        if r2.isEmpty then none
        else if r2.all Char.isDigit then
          let ev : Int := natOfDigits r2
          some (mkF64 neg intDigits fracDigits (if eneg then -ev else ev))
        else none
      else none

/-- Model of Rust `"...".parse::<f64>()`: optional sign, then the
case-insensitive specials `inf`, `infinity`, `nan`, or a decimal
literal per `decodeDecimal`. -/
def decodeF64 (s : String) : Option F64 :=
  match s.data with
  | [] => none
  | cs =>
    let (neg, cs1) :=
      match cs with
      | '-' :: rest => (true, rest)
      | '+' :: rest => (false, rest)
      | _ => (false, cs)
    let lower := cs1.map Char.toLower
    if lower = ['i', 'n', 'f'] ∨ lower = ['i', 'n', 'f', 'i', 'n', 'i', 't', 'y'] then
      some (if neg then .negInf else .posInf)
    else if lower = ['n', 'a', 'n'] then some .nan
    else decodeDecimal neg cs1

/-! ## The log-preamble pattern

src/parse.rs line 38 compiles the unanchored regular expression
`[A-z0-9]+:[0-9]+:[0-9]+` and classifies any line containing a match as
a log line.  The character class `[A-z]` is the codepoint range 65..122
(so it also contains the six punctuation characters between the upper
and lower case letters).  `is_match` holds exactly when some substring
matches; because the class does not contain a colon, a match exists
starting at position `i` exactly when the maximal class run from `i` is
nonempty and is followed by a colon, a nonempty maximal digit run,
another colon and at least one digit.  `matchFrom` decides that, and
`hasPreamble` scans every start position. -/

/-- Membership in the regex character class `[A-z0-9]`. -/
def isClass1 (c : Char) : Bool :=
  (65 ≤ c.toNat && c.toNat ≤ 122) || (48 ≤ c.toNat && c.toNat ≤ 57)

/-- Does a match of `[A-z0-9]+:[0-9]+:[0-9]+` start at the head of the
list? -/
def matchFrom (cs : List Char) : Bool :=
  let a := cs.takeWhile isClass1
  let r1 := cs.dropWhile isClass1
  if a.isEmpty then false
  else
    match r1 with
    | ':' :: r2 =>
      let b := r2.takeWhile Char.isDigit
      let r3 := r2.dropWhile Char.isDigit
      if b.isEmpty then false
      else
        match r3 with
        | ':' :: c :: _ => c.isDigit
        | _ => false
    | _ => false

/-- Model of `Regex::new("[A-z0-9]+:[0-9]+:[0-9]+").is_match(line)`:
does any suffix of the line start a match? -/
def hasPreamble : List Char → Bool
  | [] => false
  | c :: rest => matchFrom (c :: rest) || hasPreamble rest

/-! ## The data model (src/util.rs) -/

/-- Struct `Row` from src/util.rs: one measured table row of the NCCL
output.  The `num_wrong` columns stay strings because the benchmark
sometimes prints the sentinel `N/A` there. -/
structure Row where
  size : Nat
  count : Nat
  dtype : String
  redop : String
  root : Int
  oop_time : F64
  oop_alg_bw : F64
  oop_bus_bw : F64
  oop_num_wrong : String
  ip_time : F64
  ip_alg_bw : F64
  ip_bus_bw : F64
  ip_num_wrong : String
deriving DecidableEq

deriving instance DecidableEq for Except

/-! ## The line classifier (src/parse.rs, `parse_line`)

The Rust function returns `Result<Option<Row>, Box<dyn Error>>`; we
mirror it as `Except String (Option Row)`.  Each early `return Ok(None)`
on a field decode failure becomes the `none` branch of the
corresponding match. -/

/-- Field-wise decode of the thirteen tokens of a table data row, with
the early `Ok(None)` returns of src/parse.rs lines 52-125 as nested
matches in source order. -/
def parseCore (t0 t1 t2 t3 t4 t5 t6 t7 t8 t9 t10 t11 t12 : String) :
    Except String (Option Row) :=
  match decodeU64 t0 with
  | none => .ok none
  | some size =>
  match decodeU64 t1 with
  | none => .ok none
  | some count =>
  match decodeI64 t4 with
  | none => .ok none
  | some root =>
  match decodeF64 t5 with
  | none => .ok none
  | some oop_time =>
  match decodeF64 t6 with
  | none => .ok none
  | some oop_alg_bw =>
  match decodeF64 t7 with
  | none => .ok none
  | some oop_bus_bw =>
  match decodeF64 t9 with
  | none => .ok none
  | some ip_time =>
  match decodeF64 t10 with
  | none => .ok none
  | some ip_alg_bw =>
  match decodeF64 t11 with
  | none => .ok none
  | some ip_bus_bw =>
  .ok (some
    { size := size
      count := count
      dtype := t2
      redop := if t3.data.isEmpty then "N/A" else t3
      root := root
      oop_time := oop_time
      oop_alg_bw := oop_alg_bw
      oop_bus_bw := oop_bus_bw
      oop_num_wrong := t8
      ip_time := ip_time
      ip_alg_bw := ip_alg_bw
      ip_bus_bw := ip_bus_bw
      ip_num_wrong := t12 })

/-- Model of `parse_line` from src/parse.rs: split the line on
whitespace, classify lines containing a log-preamble substring as
ignored, decode lines of exactly 13 tokens field by field, and ignore
everything else.  (The Rust code computes the token list before the
regex test but only reads it afterwards; both are pure, so the order is
immaterial.) -/
def parse_line (line : String) : Except String (Option Row) :=
  if hasPreamble line.data then .ok none
  else
    match splitWs line with
    | [t0, t1, t2, t3, t4, t5, t6, t7, t8, t9, t10, t11, t12] =>
      parseCore t0 t1 t2 t3 t4 t5 t6 t7 t8 t9 t10 t11 t12
    | _ => .ok none

/-! ## Totality of the classifier (claims C4, C10) -/

/-- Proof-side repackaging of `parseCore` as an `Option` bind chain;
used to reason uniformly about the early returns. -/
def coreOpt (t0 t1 t2 t3 t4 t5 t6 t7 t8 t9 t10 t11 t12 : String) : Option Row := do
  let size ← decodeU64 t0
  let count ← decodeU64 t1
  let root ← decodeI64 t4
  let oop_time ← decodeF64 t5
  let oop_alg_bw ← decodeF64 t6
  let oop_bus_bw ← decodeF64 t7
  let ip_time ← decodeF64 t9
  let ip_alg_bw ← decodeF64 t10
  let ip_bus_bw ← decodeF64 t11
  pure
    { size := size
      count := count
      dtype := t2
      redop := if t3.data.isEmpty then "N/A" else t3
      root := root
      oop_time := oop_time
      oop_alg_bw := oop_alg_bw
      oop_bus_bw := oop_bus_bw
      oop_num_wrong := t8
      ip_time := ip_time
      ip_alg_bw := ip_alg_bw
      ip_bus_bw := ip_bus_bw
      ip_num_wrong := t12 }

lemma parseCore_eq (t0 t1 t2 t3 t4 t5 t6 t7 t8 t9 t10 t11 t12 : String) :
    parseCore t0 t1 t2 t3 t4 t5 t6 t7 t8 t9 t10 t11 t12 =
      .ok (coreOpt t0 t1 t2 t3 t4 t5 t6 t7 t8 t9 t10 t11 t12) := by
  unfold parseCore coreOpt
  cases decodeU64 t0 with
  | none => rfl
  | some size =>
  cases decodeU64 t1 with
  | none => rfl
  | some count =>
  cases decodeI64 t4 with
  | none => rfl
  | some root =>
  cases decodeF64 t5 with
  | none => rfl
  | some a5 =>
  cases decodeF64 t6 with
  | none => rfl
  | some a6 =>
  cases decodeF64 t7 with
  | none => rfl
  | some a7 =>
  cases decodeF64 t9 with
  | none => rfl
  | some a9 =>
  cases decodeF64 t10 with
  | none => rfl
  | some a10 =>
  cases decodeF64 t11 with
  | none => rfl
  | some a11 => rfl

/-- The disjunction stating that at least one of the nine fallible
field decodes of a 13-token line fails. -/
def fieldFailure (t0 t1 t4 t5 t6 t7 t9 t10 t11 : String) : Prop :=
  decodeU64 t0 = none ∨ decodeU64 t1 = none ∨ decodeI64 t4 = none ∨
  decodeF64 t5 = none ∨ decodeF64 t6 = none ∨ decodeF64 t7 = none ∨
  decodeF64 t9 = none ∨ decodeF64 t10 = none ∨ decodeF64 t11 = none

lemma coreOpt_eq_none_of_fail
    {t0 t1 t2 t3 t4 t5 t6 t7 t8 t9 t10 t11 t12 : String}
    (hfail : fieldFailure t0 t1 t4 t5 t6 t7 t9 t10 t11) :
    coreOpt t0 t1 t2 t3 t4 t5 t6 t7 t8 t9 t10 t11 t12 = none := by
  cases hc : coreOpt t0 t1 t2 t3 t4 t5 t6 t7 t8 t9 t10 t11 t12 with
  | none => rfl
  | some r =>
    exfalso
    simp only [coreOpt, bind, Option.bind_eq_some, Option.pure_def,
      Option.some.injEq] at hc
    obtain ⟨s0, h0, s1, h1, s4, h4, a5, h5, a6, h6, a7, h7, a9, h9, a10, h10,
      a11, h11, -⟩ := hc
    rcases hfail with h | h | h | h | h | h | h | h | h <;> simp_all

/-- C4: the line classifier is total: for every input string,
`parse_line` returns exactly one value of the form `Ok None` (ignored)
or `Ok (Some row)` (a data row) and never the error variant; moreover,
on any line of exactly 13 whitespace tokens, failure of any single
field decode yields `Ok None` rather than a propagated failure. -/
theorem parse_line_total (s : String) :
    (∃ o, parse_line s = .ok o) ∧
    ∀ t0 t1 t2 t3 t4 t5 t6 t7 t8 t9 t10 t11 t12 : String,
      splitWs s = [t0, t1, t2, t3, t4, t5, t6, t7, t8, t9, t10, t11, t12] →
      fieldFailure t0 t1 t4 t5 t6 t7 t9 t10 t11 →
      parse_line s = .ok none := by
  constructor
  · unfold parse_line
    split
    · exact ⟨none, rfl⟩
    · split
      · next t0 t1 t2 t3 t4 t5 t6 t7 t8 t9 t10 t11 t12 _ =>
        exact ⟨_, parseCore_eq t0 t1 t2 t3 t4 t5 t6 t7 t8 t9 t10 t11 t12⟩
      · exact ⟨none, rfl⟩
  · intro t0 t1 t2 t3 t4 t5 t6 t7 t8 t9 t10 t11 t12 hsplit hfail
    unfold parse_line
    split
    · rfl
    · rw [hsplit]
      show parseCore t0 t1 t2 t3 t4 t5 t6 t7 t8 t9 t10 t11 t12 = Except.ok none
      rw [parseCore_eq, coreOpt_eq_none_of_fail hfail]

/-- Scenario C line from the spec: 13 tokens whose 5th token `abc`
fails the signed-integer decode of the root field. -/
def lineScenarioC : String := "1 2 float sum abc 0.1 0.2 0.3 0 0.1 0.2 0.3 0"

/-- Witness for C4 at the Scenario C line: the line has 13 tokens, the
root field fails to decode, and the classifier yields `Ok None`. -/
theorem parse_line_total_witness :
    splitWs lineScenarioC =
      ["1", "2", "float", "sum", "abc", "0.1", "0.2", "0.3", "0",
       "0.1", "0.2", "0.3", "0"] ∧
    decodeI64 "abc" = none ∧
    parse_line lineScenarioC = .ok none :=
  ⟨by decide, by decide,
    (parse_line_total lineScenarioC).2 "1" "2" "float" "sum" "abc" "0.1" "0.2"
      "0.3" "0" "0.1" "0.2" "0.3" "0" (by decide)
      (Or.inr (Or.inr (Or.inl (by decide))))⟩

/-- C10: the log-preamble substring test takes precedence over the
tabular decode: any line containing a substring matching the unanchored
pattern `[A-z0-9]+:[0-9]+:[0-9]+` is classified ignored, whatever its
token structure. -/
theorem preamble_overrides_table (s : String)
    (h : hasPreamble s.data = true) : parse_line s = .ok none := by
  simp [parse_line, h]

/-- Line that both contains a log-preamble match (inside its third
token) and splits into 13 individually decodable tokens. -/
def linePreamble13 : String :=
  "1048576 262144 a:1:2 sum -1 0.1 0.2 0.3 0 0.1 0.2 0.3 0"

/-- Witness for C10: the 13 tokens of `linePreamble13` all decode (so
the tabular decode alone would produce a data row), yet the line is
classified ignored because of the preamble substring. -/
theorem preamble_overrides_table_witness :
    hasPreamble linePreamble13.data = true ∧
    splitWs linePreamble13 =
      ["1048576", "262144", "a:1:2", "sum", "-1", "0.1", "0.2", "0.3", "0",
       "0.1", "0.2", "0.3", "0"] ∧
    (coreOpt "1048576" "262144" "a:1:2" "sum" "-1" "0.1" "0.2" "0.3" "0"
      "0.1" "0.2" "0.3" "0").isSome = true ∧
    parse_line linePreamble13 = .ok none :=
  ⟨by decide, by decide, by decide,
    preamble_overrides_table linePreamble13 (by decide)⟩

/-! ## The external run wrapper (src/wrapper.rs, `run_msccl_tests`)

The wrapper spawns the external measurement process and drains its
streams.  We abstract the observable behaviour of the spawned process
into a record: the stdout and stderr lines it produces, whether its
exit status reports success, and whether obtaining the exit status
(`res.wait()?`) fails with an I/O error.  Spawning itself
(`.spawn().expect(...)`) aborts the process on failure and is outside
the state machine. -/

/-- Observable behaviour of one spawned external measurement process. -/
structure ProcessBehavior where
  stdoutLines : List String
  stderrLines : List String
  exitSuccess : Bool
  waitError : Option String
deriving DecidableEq

/-- Model of `run_msccl_tests` from src/wrapper.rs lines 101-156: an
empty `rows` vector is created; the stdout loop only logs each line —
the per-line parse step is a `TODO` in the source, so the fold leaves
`rows` untouched; stderr is then drained the same way; finally the exit
status is handled: a wait error propagates as `Err`, a failure status
is `Err` unless `ignore_error_status_codes` is set, and otherwise the
(still empty) `rows` vector is returned. -/
def run_msccl_tests (ignore_error_status_codes dry_run : Bool)
    (proc : ProcessBehavior) : Except String (List Row) :=
  let rows : List Row := []
  let rows := proc.stdoutLines.foldl (fun acc _line => acc) rows
  let _ := proc.stderrLines.foldl (fun (u : Unit) _line => u) ()
  let _ := dry_run
  match proc.waitError with
  | some e => .error e
  | none =>
    if proc.exitSuccess then .ok rows
    else if !ignore_error_status_codes then .error "NCCL tests with MPI failed."
    else .ok rows

lemma foldl_const {α β : Type} (l : List α) (init : β) :
    l.foldl (fun acc _ => acc) init = init := by
  induction l generalizing init with
  | nil => rfl
  | cons x xs ih =>
    simp only [List.foldl_cons]
    exact ih init

/-- C9: whenever `run_msccl_tests` returns `Ok`, the returned row
vector is empty: no stdout line is ever converted into a `Row`, so
every completed attempt observes zero parsed result rows. -/
theorem run_msccl_tests_ok_empty (ign dry : Bool) (proc : ProcessBehavior)
    (rows : List Row) (h : run_msccl_tests ign dry proc = .ok rows) :
    rows = [] := by
  unfold run_msccl_tests at h
  simp only [foldl_const] at h
  rcases hw : proc.waitError with - | e <;> simp only [hw] at h
  · split_ifs at h <;> cases h <;> rfl
  · cases h

/-- Spawned process that exits successfully after printing a perfectly
parseable table data row on stdout. -/
def procWithDataRow : ProcessBehavior :=
  { stdoutLines :=
      ["1048576 262144 float sum -1 0.123 0.456 0.789 0 0.111 0.222 0.333 0"]
    stderrLines := []
    exitSuccess := true
    waitError := none }

/-- Witness for C9: even when the process prints a parseable data row
and exits successfully, the wrapper returns `Ok` with zero rows. -/
theorem run_msccl_tests_ok_empty_witness :
    run_msccl_tests true false procWithDataRow = .ok ([] : List Row) ∧
    ([] : List Row) = [] :=
  ⟨by rfl, run_msccl_tests_ok_empty true false procWithDataRow [] (by rfl)⟩

/-! ## The run loop and manifest state machine (src/main.rs lines 419-574)

The loop iterates the descriptor list and, per repetition, performs the
blacklist scan, the skip-finished check, and the external run, pushing
`ManifestEntry` records.  The environment read by one attempt is
bundled into `RunCfg`: the configured blacklist, the directory paths,
the two policy flags, and a filesystem-existence oracle. -/

/-- Struct `MscclExperimentParams` from src/util.rs (paths as strings). -/
structure MscclExperimentParams where
  cuda_path : String
  efa_path : Option String
  aws_ofi_nccl_path : Option String
  openmpi_path : String
  msccl_path : String
  executable : String
  algorithm : String
  ms_xml_file : String
  ms_channels : Nat
  ms_chunks : Nat
  gpu_as_node : Bool
  num_nodes : Nat
  total_gpus : Nat
  buffer_size : Nat
  mpi_hostfile_path : String
  mpi_proc_per_node : Nat
  nc_collective : String
  nc_op : String
  nc_dtype : String
  nc_num_threads : Nat
  nc_num_gpus : Nat
  nc_min_bytes : String
  nc_max_bytes : String
  nc_step_factor : String
  nc_num_iters : Nat
  nc_num_warmup_iters : Nat
  nccl_debug_level : String
  nccl_algo : String
deriving DecidableEq

/-- Enum `ResultDescription` from src/util.rs: the closed outcome set. -/
inductive ResultDescription where
  | Success
  | PartialFailure
  | Failure
  | Skipped
  | Blacklisted
deriving DecidableEq

/-- Struct `ManifestEntry` from src/util.rs. -/
structure ManifestEntry where
  collective : String
  op : String
  dtype : String
  algorithm : String
  num_channels : Nat
  num_chunks : Nat
  num_gpus : Nat
  buffer_size_factor : Nat
  overall_result : ResultDescription
deriving DecidableEq

/-- Model of `PathBuf::join` with a relative file name. -/
def pathJoin (dir name : String) : String := dir ++ "/" ++ name

/-- Model of `exp_params_to_output_filename` from src/util.rs lines
116-131: the fixed token order of the per-attempt artifact name. -/
def exp_params_to_output_filename (params : MscclExperimentParams)
    (iteration : Nat) (extension : String) : String :=
  params.nc_collective ++ "_" ++ params.algorithm ++
    "_node" ++ toString params.num_nodes ++
    "_gpu" ++ toString params.total_gpus ++
    "_mcl" ++ toString params.ms_channels ++
    "_mck" ++ toString params.ms_chunks ++
    "_buf" ++ toString params.buffer_size ++
    "_gan" ++ (if params.gpu_as_node then "1" else "0") ++
    "_i" ++ toString iteration ++ "." ++ extension

/-- Manifest record pushed for a descriptor with a given outcome; all
five push sites in src/main.rs construct exactly these fields. -/
def mkManifestEntry (d : MscclExperimentParams) (res : ResultDescription) :
    ManifestEntry :=
  { collective := d.nc_collective
    op := d.nc_op
    dtype := d.nc_dtype
    algorithm := d.algorithm
    num_channels := d.ms_channels
    num_chunks := d.ms_chunks
    num_gpus := d.total_gpus
    buffer_size_factor := d.buffer_size
    overall_result := res }

/-- Environment read by one attempt of the run loop. -/
structure RunCfg where
  blacklist : List String
  msccl_xmls_directory : String
  experiments_output_dir : String
  skip_finished : Bool
  dry_run : Bool
  fsExists : String → Bool

/-- Per-attempt output log path, as computed at src/main.rs lines 452-454. -/
def outputPathOf (cfg : RunCfg) (d : MscclExperimentParams) (i : Nat) : String :=
  pathJoin cfg.experiments_output_dir (exp_params_to_output_filename d i "log")

/-- Model of the blacklist loop at src/main.rs lines 460-488: each
blacklist entry whose full path equals the attempt's XML path pushes a
`Blacklisted` manifest entry.  The `continue` statement in the source
only ends the current iteration of this inner loop over the blacklist,
so after the loop control falls through to the rest of the attempt. -/
def blacklistScan (cfg : RunCfg) (d : MscclExperimentParams) :
    List ManifestEntry :=
  cfg.blacklist.foldl
    (fun acc b =>
      if d.ms_xml_file = pathJoin cfg.msccl_xmls_directory b then
        acc ++ [mkManifestEntry d .Blacklisted]
      else acc)
    []

/-- One attempt of the run loop body (src/main.rs lines 424-573) for a
given descriptor and repetition index: returns the manifest entries
appended during the attempt and whether the external run collaborator
was invoked.  Mirrors the source control flow: the blacklist loop runs
first (its entries come first and, because of the inner `continue`, do
not short-circuit), then the skip-finished check, then the external
run with `ignore_error_status_codes` hard-coded to `true`; an `Err`
from the wrapper records `Failure`, an `Ok` records `Success`. -/
def processAttempt (cfg : RunCfg) (d : MscclExperimentParams) (i : Nat)
    (proc : ProcessBehavior) : List ManifestEntry × Bool :=
  let blEntries := blacklistScan cfg d
  if cfg.skip_finished && cfg.fsExists (outputPathOf cfg d i) then
    (blEntries ++ [mkManifestEntry d .Skipped], false)
  else
    match run_msccl_tests true cfg.dry_run proc with
    | .error _ => (blEntries ++ [mkManifestEntry d .Failure], true)
    | .ok _rows => (blEntries ++ [mkManifestEntry d .Success], true)

lemma blacklistScan_foldl_no_match (xml dir : String) (e : ManifestEntry) :
    ∀ (l : List String) (acc : List ManifestEntry),
      (∀ b ∈ l, xml ≠ pathJoin dir b) →
      l.foldl
        (fun acc b => if xml = pathJoin dir b then acc ++ [e] else acc)
        acc = acc := by
  intro l
  induction l with
  | nil => intro acc _; rfl
  | cons b bs ih =>
    intro acc h
    simp only [List.foldl_cons]
    rw [if_neg (h b (by simp))]
    exact ih acc (fun x hx => h x (by simp [hx]))

lemma blacklistScan_eq_nil {cfg : RunCfg} {d : MscclExperimentParams}
    (h : ∀ b ∈ cfg.blacklist,
        d.ms_xml_file ≠ pathJoin cfg.msccl_xmls_directory b) :
    blacklistScan cfg d = [] :=
  blacklistScan_foldl_no_match _ _ _ cfg.blacklist [] h

/-! ## Concrete inputs for the run-loop claims -/

/-- Concrete experiment descriptor (the `ring`, 4-channel, 2-chunk
point used by the commented-out blacklist example in src/main.rs). -/
def demoParams : MscclExperimentParams :=
  { cuda_path := "/opt/cuda"
    efa_path := none
    aws_ofi_nccl_path := none
    openmpi_path := "/opt/ompi"
    msccl_path := "/opt/msccl"
    executable := "/bins/all_reduce_perf"
    algorithm := "ring"
    ms_xml_file := pathJoin "/xmls" "allreduce_ring_node4_gpu32_mcl4_mck2_gan0.xml"
    ms_channels := 4
    ms_chunks := 2
    gpu_as_node := false
    num_nodes := 4
    total_gpus := 32
    buffer_size := 2
    mpi_hostfile_path := "/hostfile"
    mpi_proc_per_node := 8
    nc_collective := "all-reduce"
    nc_op := "sum"
    nc_dtype := "float"
    nc_num_threads := 1
    nc_num_gpus := 1
    nc_min_bytes := "64K"
    nc_max_bytes := "16G"
    nc_step_factor := "2"
    nc_num_iters := 100
    nc_num_warmup_iters := 20
    nccl_debug_level := "INFO"
    nccl_algo := "Tree,Ring,CollnetDirect,CollnetChain,NVLS,NVLSTree" }

/-- Run configuration whose blacklist contains exactly the XML file of
`demoParams`, with skip-finished disabled. -/
def blacklistCfg : RunCfg :=
  { blacklist := ["allreduce_ring_node4_gpu32_mcl4_mck2_gan0.xml"]
    msccl_xmls_directory := "/xmls"
    experiments_output_dir := "/out"
    skip_finished := false
    dry_run := false
    fsExists := fun _ => false }

/-- Run configuration with an empty blacklist and skip-finished
disabled (mirrors the committed configuration of src/main.rs line 275). -/
def plainCfg : RunCfg :=
  { blacklist := []
    msccl_xmls_directory := "/xmls"
    experiments_output_dir := "/out"
    skip_finished := false
    dry_run := false
    fsExists := fun _ => false }

/-- Run configuration with an empty blacklist, skip-finished enabled
and every file reported as existing. -/
def skipCfg : RunCfg :=
  { blacklist := []
    msccl_xmls_directory := "/xmls"
    experiments_output_dir := "/out"
    skip_finished := true
    dry_run := false
    fsExists := fun _ => true }

/-- Process behaviour: success exit, no wait error, one stdout line. -/
def procOk : ProcessBehavior :=
  { stdoutLines := ["some output line"]
    stderrLines := []
    exitSuccess := true
    waitError := none }

/-- C1: evaluating the run loop body at an attempt whose XML path is on
the configured blacklist: a `Blacklisted` entry is recorded, but —
because the `continue` in src/main.rs line 486 only ends the inner loop
over the blacklist — the attempt falls through to the execution path,
the external run collaborator IS invoked (second component `true`), and
a second, `Success`, entry is appended.  This contradicts the claim
(and the log message of the source) that a blacklisted attempt is
skipped and never executed. -/
theorem blacklisted_attempt_still_invokes_runner :
    processAttempt blacklistCfg demoParams 0 procOk =
      ([mkManifestEntry demoParams .Blacklisted,
        mkManifestEntry demoParams .Success], true) := by
  rfl

/-- C2: evaluating the run loop body at a blacklisted attempt: two
manifest entries are appended for the single (descriptor, repetition)
attempt, contradicting the exactly-one-entry-per-attempt invariant. -/
theorem manifest_entries_doubled_for_blacklisted :
    ((processAttempt blacklistCfg demoParams 0 procOk).1.length = 2) ∧
    ¬((processAttempt blacklistCfg demoParams 0 procOk).1.length = 1) := by
  constructor <;> decide

/-- C3 counterexample: a non-blacklisted, non-skipped attempt whose
external process exits successfully but yields zero parsed rows (as
every attempt does) is recorded `Success`, contradicting the claim
that zero parsed rows prevents a `Success` outcome. -/
theorem success_recorded_with_zero_rows :
    run_msccl_tests true false procOk = .ok ([] : List Row) ∧
    (processAttempt plainCfg demoParams 0 procOk).1 =
      [mkManifestEntry demoParams .Success] := by
  constructor <;> rfl

/-- C3 (amended): for every non-blacklisted, non-skipped attempt, the
outcome `Success` is recorded if and only if `run_msccl_tests` returns
`Ok` — the external process reported a success exit status, or the
ignore-exit-code policy (hard-coded to `true` by the run loop) applied;
the parsed row count plays no role. -/
theorem success_iff_run_ok (cfg : RunCfg) (d : MscclExperimentParams)
    (i : Nat) (proc : ProcessBehavior)
    (hbl : ∀ b ∈ cfg.blacklist,
        d.ms_xml_file ≠ pathJoin cfg.msccl_xmls_directory b)
    (hskip : ¬(cfg.skip_finished = true ∧
        cfg.fsExists (outputPathOf cfg d i) = true)) :
    (processAttempt cfg d i proc).1 = [mkManifestEntry d .Success] ↔
      ∃ rows, run_msccl_tests true cfg.dry_run proc = .ok rows := by
  unfold processAttempt
  rw [blacklistScan_eq_nil hbl]
  have hcond : (cfg.skip_finished && cfg.fsExists (outputPathOf cfg d i)) = false := by
    rcases h1 : cfg.skip_finished with - | -
    · rfl
    · rcases h2 : cfg.fsExists (outputPathOf cfg d i) with - | -
      · rfl
      · exact absurd ⟨h1, h2⟩ hskip
  rw [hcond]
  simp only [Bool.false_eq_true, if_false, List.nil_append]
  rcases hr : run_msccl_tests true cfg.dry_run proc with e | rows
  · constructor
    · intro h
      exact absurd (List.head_eq_of_cons_eq h)
        (by simp [mkManifestEntry])
    · rintro ⟨rows, hrows⟩
      cases hrows
  · exact ⟨fun _ => ⟨rows, rfl⟩, fun _ => rfl⟩

/-- Witness for the amended C3 at a concrete non-blacklisted,
non-skipped attempt with a successful external run. -/
theorem success_iff_run_ok_witness :
    (processAttempt plainCfg demoParams 0 procOk).1 =
      [mkManifestEntry demoParams .Success] :=
  (success_iff_run_ok plainCfg demoParams 0 procOk (by simp [plainCfg])
      (by simp [plainCfg])).mpr ⟨[], by rfl⟩

/-- C7: given skip-finished enabled, a pre-existing output artifact on
disk for the (descriptor, repetition) attempt, and a descriptor whose
XML path is not blacklisted, the attempt records exactly the outcome
`Skipped` and the external run collaborator is never invoked.  (The
artifact whose existence is checked is the per-attempt log output file
named by `exp_params_to_output_filename`.) -/
theorem skip_finished_skips (cfg : RunCfg) (d : MscclExperimentParams)
    (i : Nat) (proc : ProcessBehavior)
    (hs : cfg.skip_finished = true)
    (hex : cfg.fsExists (outputPathOf cfg d i) = true)
    (hbl : ∀ b ∈ cfg.blacklist,
        d.ms_xml_file ≠ pathJoin cfg.msccl_xmls_directory b) :
    processAttempt cfg d i proc = ([mkManifestEntry d .Skipped], false) := by
  unfold processAttempt
  rw [blacklistScan_eq_nil hbl, hs, hex]
  rfl

/-- Witness for C7 at a concrete attempt with skip-finished enabled and
the output artifact present. -/
theorem skip_finished_skips_witness :
    processAttempt skipCfg demoParams 0 procOk =
      ([mkManifestEntry demoParams .Skipped], false) :=
  skip_finished_skips skipCfg demoParams 0 procOk (by rfl) (by rfl)
    (by simp [skipCfg])

/-! ## The permutation generator (src/main.rs lines 289-412)

The generator expands the fixed dimension lists committed in
src/main.rs into the ordered list of experiment descriptors, deriving
and checking the companion XML artifact for each tuple.  Environment
data (paths, node and GPU counts, and which files exist) is bundled
into `GenEnv`.  A missing XML file or executable, or an unknown
collective or algorithm identifier, is a panic in the source (under
the default build configuration) and is modelled as `Except.error`. -/

/-- Model of `collective_to_test_exe` from src/util.rs lines 141-157. -/
def collective_to_test_exe (collective : String) : Except String String :=
  match collective with
  | "all-reduce" => .ok "all_reduce_perf"
  | "all-gather" => .ok "all_gather_perf"
  | "all-to-all" => .ok "alltoall_perf"
  | "broadcast" => .ok "broadcast_perf"
  | "gather" => .ok "gather_perf"
  | "hypercube" => .ok "hypercube_perf"
  | "reduce" => .ok "reduce_perf"
  | "reduce-scatter" => .ok "reduce_scatter_perf"
  | "scatter" => .ok "scatter_perf"
  | "sendrecv" => .ok "sendrecv_perf"
  | _ => .error ("Could not figure out which NCCL-tests executable this collective name this corresponds to: " ++ collective)

/-- Conversion of a collective name to the XML naming format, from
`params_to_xml` in src/util.rs lines 268-282. -/
def convertedCollective (collective : String) : Except String String :=
  match collective with
  | "all-reduce" => .ok "allreduce"
  | "all-gather" => .ok "allgather"
  | "all-to-all" => .ok "alltoall"
  | "broadcast" => .ok "broadcast"
  | "gather" => .ok "gather"
  | "hypercube" => .ok "hypercube"
  | "reduce" => .ok "reduce"
  | "reduce-scatter" => .ok "reducescatter"
  | "scatter" => .ok "scatter"
  | "sendrecv" => .ok "sendrecv"
  | _ => .error ("Could not find a matching Ly-formatted collective for: " ++ collective)

/-- Conversion of an algorithm name to the XML naming format, from
`params_to_xml` in src/util.rs lines 285-295.  The converted value is
computed (and its error propagates) but the final name uses the
original `comm_algorithm` string, exactly as the source does. -/
def convertedAlgo (comm_algorithm : String) : Except String String :=
  match comm_algorithm with
  | "binary-tree" => .ok "binary_tree"
  | "binomial-tree" => .ok "binomial_tree"
  | "recursive-doubling" => .ok "recursive_doubling"
  | "recursive-halving-doubling" => .ok "recursive_doubling_halving"
  | "ring" => .ok "ring"
  | "trinomial-tree" => .ok "trinomial_tree"
  | _ => .error ("Could not find a matching Ly-formatted comm. algorithm for: " ++ comm_algorithm)

/-- Model of `params_to_xml` from src/util.rs lines 258-309: the
expected companion XML file name for a parameter tuple.  Reduction op,
data type and repetition index are deliberately absent from the name. -/
def params_to_xml (collective comm_algorithm : String)
    (num_nodes num_gpus msccl_channels msccl_chunks : Nat)
    (gpu_as_node : Bool) : Except String String := do
  let conv ← convertedCollective collective
  let _convAlgo ← convertedAlgo comm_algorithm
  .ok (conv ++ "_" ++ comm_algorithm ++
    "_node" ++ toString num_nodes ++
    "_gpu" ++ toString num_gpus ++
    "_mcl" ++ toString msccl_channels ++
    "_mck" ++ toString msccl_chunks ++
    "_gan" ++ (if gpu_as_node then "1" else "0") ++ ".xml")

/-- Fixed dimension list of collectives (src/main.rs lines 213-224). -/
def collectives : List String := ["all-reduce"]

/-- Fixed dimension list of reduction ops (src/main.rs lines 225-231). -/
def reduction_ops : List String := ["sum"]

/-- Fixed dimension list of data types (src/main.rs lines 232-237). -/
def data_types : List String := ["float"]

/-- Fixed dimension list of communication algorithms (src/main.rs
lines 238-245). -/
def comm_algorithms : List String := ["binary-tree", "ring"]

/-- Fixed dimension list of buffer size factors (src/main.rs lines 263-267). -/
def buffer_sizes : List Nat := [2]

/-- Fixed dimension list of device-as-node flags (src/main.rs lines 269-272). -/
def gpus_as_nodes : List Bool := [false]

/-- Per-algorithm allowed (chunks, channels) lists, from the match at
src/main.rs lines 302-314.  An unknown algorithm is a panic, modelled
as an error. -/
def allowedPairs (comm_algorithm : String) :
    Except String (List Nat × List Nat) :=
  match comm_algorithm with
  | "binary-tree" => .ok ([1, 2, 4, 8, 16], [4, 8, 16])
  | "ring" => .ok ([1, 2], [4, 8, 16])
  | _ => .error ("[ERROR] Unknown comm_algorithm: " ++ comm_algorithm)

/-- Environment read by the permutation generator. -/
structure GenEnv where
  cuda_path : String
  efa_path : Option String
  aws_ofi_nccl_path : Option String
  openmpi_path : String
  msccl_path : String
  nccl_test_bins : String
  msccl_xmls_directory : String
  mpi_hostfile_path : String
  num_nodes : Nat
  gpus_per_node : Nat
  fsExists : String → Bool

/-- Sequential accumulation of a loop body producing descriptor
batches, propagating the first panic; models a Rust for loop pushing
into a vector where the body may abort the program. -/
def listFlatMapM {α β : Type} (xs : List α)
    (f : α → Except String (List β)) : Except String (List β) :=
  match xs with
  | [] => .ok []
  | x :: rest => do
    let bs ← f x
    let more ← listFlatMapM rest f
    .ok (bs ++ more)

/-- Descriptor constructed at src/main.rs lines 348-390 for one
permutation tuple. -/
def mkGenParams (env : GenEnv) (executable collective : String)
    (buffer_size : Nat) (data_type reduction_op comm_algorithm : String)
    (msccl_channels msccl_chunks : Nat) (gpu_as_node : Bool)
    (xml_file : String) : MscclExperimentParams :=
  { cuda_path := env.cuda_path
    efa_path := env.efa_path
    aws_ofi_nccl_path := env.aws_ofi_nccl_path
    openmpi_path := env.openmpi_path
    msccl_path := env.msccl_path
    executable := executable
    algorithm := comm_algorithm
    ms_xml_file := xml_file
    ms_channels := msccl_channels
    ms_chunks := msccl_chunks
    gpu_as_node := gpu_as_node
    num_nodes := env.num_nodes
    total_gpus := env.num_nodes * env.gpus_per_node
    buffer_size := buffer_size
    mpi_hostfile_path := env.mpi_hostfile_path
    mpi_proc_per_node := env.gpus_per_node
    nc_collective := collective
    nc_op := reduction_op
    nc_dtype := data_type
    nc_num_threads := 1
    nc_num_gpus := 1
    nc_min_bytes := "64K"
    nc_max_bytes := "16G"
    nc_step_factor := "2"
    nc_num_iters := 100
    nc_num_warmup_iters := 20
    nccl_debug_level := "INFO"
    nccl_algo := "Tree,Ring,CollnetDirect,CollnetChain,NVLS,NVLSTree" }

/-- Innermost loops of the generator (chunks, then channels, then the
device-as-node flag), with the companion-XML derivation and strict
existence check per tuple. -/
def genInner (env : GenEnv) (executable collective : String)
    (buffer_size : Nat) (data_type reduction_op comm_algorithm : String)
    (chunks channels : List Nat) : Except String (List MscclExperimentParams) :=
  listFlatMapM chunks (fun msccl_chunks =>
    listFlatMapM channels (fun msccl_channels =>
      listFlatMapM gpus_as_nodes (fun gpu_as_node => do
        let xml_file_name ← params_to_xml collective comm_algorithm
          env.num_nodes (env.num_nodes * env.gpus_per_node)
          msccl_channels msccl_chunks gpu_as_node
        let xml_file := pathJoin env.msccl_xmls_directory xml_file_name
        if env.fsExists xml_file then
          .ok [mkGenParams env executable collective buffer_size data_type
            reduction_op comm_algorithm msccl_channels msccl_chunks
            gpu_as_node xml_file]
        else
          .error ("During permutation generation, XML file not found at: "
            ++ xml_file ++ ". Quitting."))))

/-- Model of the permutation generator, src/main.rs lines 289-412: the
nested loops collective, buffer size, data type, reduction op,
algorithm, chunk, channel, device-as-node flag, with the per-algorithm
allowed (chunk, channel) table and strict artifact checking. -/
def generateDescriptors (env : GenEnv) :
    Except String (List MscclExperimentParams) :=
  listFlatMapM collectives (fun collective => do
    let collective_exe ← collective_to_test_exe collective
    let nccl_test_executable := pathJoin env.nccl_test_bins collective_exe
    if env.fsExists nccl_test_executable then
      listFlatMapM buffer_sizes (fun buffer_size =>
        listFlatMapM data_types (fun data_type =>
          listFlatMapM reduction_ops (fun reduction_op =>
            listFlatMapM comm_algorithms (fun comm_algorithm => do
              let (chunks, channels) ← allowedPairs comm_algorithm
              genInner env nccl_test_executable collective buffer_size
                data_type reduction_op comm_algorithm chunks channels))))
    else .error "assertion failed: nccl_test_executable.exists()")

/-! ## Claims C6 and C8: the generated sequence -/

/-- Dimension-tuple view of a descriptor: collective, buffer factor,
data type, reduction op, algorithm, chunk, channel, device-as-node. -/
def projTuple (d : MscclExperimentParams) :
    String × Nat × String × String × String × Nat × Nat × Bool :=
  (d.nc_collective, d.buffer_size, d.nc_dtype, d.nc_op, d.algorithm,
    d.ms_chunks, d.ms_channels, d.gpu_as_node)

/-- Modelled from the spec: the chunk values allowed for each
algorithm (binary-tree: 1, 2, 4, 8, 16; ring: 1, 2). -/
def chunksOfAlg (alg : String) : List Nat :=
  match alg with
  | "binary-tree" => [1, 2, 4, 8, 16]
  | "ring" => [1, 2]
  | _ => []

/-- Modelled from the spec: the channel values allowed for each
algorithm (4, 8, 16 for both binary-tree and ring). -/
def channelsOfAlg (alg : String) : List Nat :=
  match alg with
  | "binary-tree" => [4, 8, 16]
  | "ring" => [4, 8, 16]
  | _ => []

/-- Modelled from the spec: the allowed (chunk, channel) set configured
for an algorithm, as the product of its allowed chunk and channel
lists. -/
def allowedSet (alg : String) : List (Nat × Nat) :=
  (chunksOfAlg alg).flatMap (fun ck => (channelsOfAlg alg).map (fun cl => (ck, cl)))

/-- Modelled from the spec: the enumeration of dimension tuples in the
fixed nested order collective (outermost), buffer-size, data type,
reduction op, algorithm, chunk, channel, device-as-node flag
(innermost). -/
def specEnumeration : List (String × Nat × String × String × String × Nat × Nat × Bool) :=
  collectives.flatMap (fun c =>
    buffer_sizes.flatMap (fun b =>
      data_types.flatMap (fun dt =>
        reduction_ops.flatMap (fun op =>
          comm_algorithms.flatMap (fun alg =>
            (chunksOfAlg alg).flatMap (fun ck =>
              (channelsOfAlg alg).flatMap (fun cl =>
                gpus_as_nodes.map (fun gan =>
                  (c, b, dt, op, alg, ck, cl, gan)))))))))

lemma flatMap_singleton_eq_map {α β : Type} (l : List α) (f : α → β) :
    (l.flatMap (fun x => [f x])) = l.map f := by
  induction l with
  | nil => rfl
  | cons x xs ih => simp [ih]

lemma listFlatMapM_ok_map {α β γ : Type} (proj : β → γ) (g : α → List γ) :
    ∀ (xs : List α) (f : α → Except String (List β)) (l : List β),
      listFlatMapM xs f = .ok l →
      (∀ x ∈ xs, ∀ lx, f x = .ok lx → lx.map proj = g x) →
      l.map proj = xs.flatMap g := by
  intro xs
  induction xs with
  | nil =>
    intro f l h _
    cases h
    rfl
  | cons x rest ih =>
    intro f l h hg
    unfold listFlatMapM at h
    rcases hx : f x with e | bs <;> rw [hx] at h
    · cases h
    · rcases hrest : listFlatMapM rest f with e | more <;>
        simp only [hrest, bind, Except.bind] at h
      · cases h
      · cases h
        rw [List.map_append, List.flatMap_cons,
          ih f more hrest (fun y hy => hg y (List.mem_cons_of_mem x hy)),
          hg x (List.mem_cons_self x rest) bs hx]

lemma genLeaf (env : GenEnv) (exe coll : String) (buf : Nat)
    (dt op alg : String) (ck cl : Nat) (gan : Bool) (name : String)
    (lgan : List MscclExperimentParams)
    (hname : params_to_xml coll alg env.num_nodes
        (env.num_nodes * env.gpus_per_node) cl ck gan = .ok name)
    (hlgan : (do
        let xml_file_name ← params_to_xml coll alg env.num_nodes
          (env.num_nodes * env.gpus_per_node) cl ck gan
        let xml_file := pathJoin env.msccl_xmls_directory xml_file_name
        if env.fsExists xml_file then
          Except.ok [mkGenParams env exe coll buf dt op alg cl ck gan xml_file]
        else
          Except.error ("During permutation generation, XML file not found at: "
            ++ xml_file ++ ". Quitting.")) = Except.ok lgan) :
    lgan = [mkGenParams env exe coll buf dt op alg cl ck gan
      (pathJoin env.msccl_xmls_directory name)] := by
  rw [hname] at hlgan
  simp only [bind, Except.bind] at hlgan
  split at hlgan
  · exact (Except.ok.inj hlgan).symm
  · cases hlgan

lemma genInner_proj (env : GenEnv) (exe : String) (alg : String)
    (halg : alg = "binary-tree" ∨ alg = "ring")
    (chunks channels : List Nat) (l : List MscclExperimentParams)
    (h : genInner env exe "all-reduce" 2 "float" "sum" alg chunks channels
        = .ok l) :
    l.map projTuple =
      chunks.flatMap (fun ck =>
        channels.flatMap (fun cl =>
          gpus_as_nodes.map (fun gan =>
            ("all-reduce", 2, "float", "sum", alg, ck, cl, gan)))) := by
  unfold genInner at h
  refine listFlatMapM_ok_map _ _ chunks _ l h ?_
  intro ck _ lck hlck
  refine listFlatMapM_ok_map _ _ channels _ lck hlck ?_
  intro cl _ lcl hlcl
  rw [← flatMap_singleton_eq_map gpus_as_nodes
    (fun gan => ("all-reduce", 2, "float", "sum", alg, ck, cl, gan))]
  refine listFlatMapM_ok_map _ _ gpus_as_nodes _ lcl hlcl ?_
  intro gan _ lgan hlgan
  rcases halg with h1 | h1 <;> subst h1
  · rw [genLeaf env exe "all-reduce" 2 "float" "sum" "binary-tree" ck cl gan _
      lgan rfl hlgan]
    simp [mkGenParams, projTuple]
  · rw [genLeaf env exe "all-reduce" 2 "float" "sum" "ring" ck cl gan _
      lgan rfl hlgan]
    simp [mkGenParams, projTuple]

lemma gen_proj (env : GenEnv) (l : List MscclExperimentParams)
    (h : generateDescriptors env = .ok l) :
    l.map projTuple = specEnumeration := by
  unfold generateDescriptors at h
  refine listFlatMapM_ok_map _ _ collectives _ l h ?_
  intro c hc lc hlc
  rcases List.mem_singleton.mp hc with rfl
  simp only [collective_to_test_exe, bind, Except.bind] at hlc
  split at hlc
  · refine listFlatMapM_ok_map _ _ buffer_sizes _ lc hlc ?_
    intro b hb lb hlb
    rcases List.mem_singleton.mp hb with rfl
    refine listFlatMapM_ok_map _ _ data_types _ lb hlb ?_
    intro dt hdt ldt hldt
    rcases List.mem_singleton.mp hdt with rfl
    refine listFlatMapM_ok_map _ _ reduction_ops _ ldt hldt ?_
    intro op hop lop hlop
    rcases List.mem_singleton.mp hop with rfl
    refine listFlatMapM_ok_map _ _ comm_algorithms _ lop hlop ?_
    intro alg halg lalg hlalg
    have halg2 : alg = "binary-tree" ∨ alg = "ring" := by
      simpa [comm_algorithms] using halg
    rcases halg2 with h1 | h1 <;> subst h1 <;>
    · simp only [allowedPairs, bind, Except.bind] at hlalg
      exact genInner_proj env _ _ (by simp) _ _ lalg hlalg
  · cases hlc

/-- C6: every descriptor produced by the permutation generator carries
a (chunk, channel) pair belonging to the allowed set configured for its
algorithm (binary-tree: chunks 1, 2, 4, 8, 16 by channels 4, 8, 16;
ring: chunks 1, 2 by channels 4, 8, 16); no other combination ever
appears in the generated sequence. -/
theorem generator_pairs_allowed (env : GenEnv)
    (l : List MscclExperimentParams)
    (h : generateDescriptors env = .ok l) :
    ∀ d ∈ l, (d.ms_chunks, d.ms_channels) ∈ allowedSet d.algorithm := by
  intro d hd
  have hproj : projTuple d ∈ specEnumeration := by
    rw [← gen_proj env l h]
    exact List.mem_map_of_mem projTuple hd
  have hall : ∀ t ∈ specEnumeration,
      (t.2.2.2.2.2.1, t.2.2.2.2.2.2.1) ∈ allowedSet t.2.2.2.2.1 := by decide
  simpa [projTuple] using hall _ hproj

/-- C8: the generated descriptor sequence, viewed through its dimension
tuples, is exactly the enumeration of the fixed dimension lists in the
nested order collective (outermost), buffer-size, data type, reduction
op, algorithm, chunk, channel, device-as-node flag (innermost) — in
particular the order is the same for every environment in which
generation succeeds. -/
theorem generator_order_matches_spec (env : GenEnv)
    (l : List MscclExperimentParams)
    (h : generateDescriptors env = .ok l) :
    l.map projTuple = specEnumeration :=
  gen_proj env l h

/-- Generator environment in which every file exists. -/
def allTrueEnv : GenEnv :=
  { cuda_path := "/opt/cuda"
    efa_path := none
    aws_ofi_nccl_path := none
    openmpi_path := "/opt/ompi"
    msccl_path := "/opt/msccl"
    nccl_test_bins := "/bins"
    msccl_xmls_directory := "/xmls"
    mpi_hostfile_path := "/hostfile"
    num_nodes := 4
    gpus_per_node := 8
    fsExists := fun _ => true }

/-- The concrete descriptor list generated under `allTrueEnv`. -/
def generatedDemo : List MscclExperimentParams :=
  (generateDescriptors allTrueEnv).toOption.getD []

/-- First descriptor of the concrete generated list. -/
def firstGenerated : MscclExperimentParams := generatedDemo.headD demoParams

/-- Witness for C6: the first concretely generated descriptor has its
(chunk, channel) pair inside the allowed set of its algorithm. -/
theorem generator_pairs_allowed_witness :
    (firstGenerated.ms_chunks, firstGenerated.ms_channels) ∈
      allowedSet firstGenerated.algorithm :=
  generator_pairs_allowed allTrueEnv generatedDemo (by rfl) firstGenerated
    (by decide)

/-- Witness for C8: the concrete generated list under `allTrueEnv`
projects exactly onto the spec-order enumeration. -/
theorem generator_order_matches_spec_witness :
    generatedDemo.map projTuple = specEnumeration :=
  generator_order_matches_spec allTrueEnv generatedDemo (by rfl)

/-! ## Claim C5: the synthetic-line round trip

The source has no serializer, so the synthetic 13-token line of the
round-trip property is modelled from the spec: each field is printed
the way Rust `Display` prints the corresponding value, and the tokens
are joined by single spaces in column order. -/

/-- Modelled from the spec: printing of an unsigned integer field. -/
def printU64 (n : Nat) : String := toString n

/-- Modelled from the spec: printing of a signed integer field. -/
def printI64 (i : Int) : String := toString i

/-- Left-pad a digit string with zeros to width `k`. -/
def padZeros (k : Nat) (s : String) : String :=
  String.mk (List.replicate (k - s.length) '0') ++ s

/-- Modelled from the spec: exact plain-decimal rendering of a
canonical decimal value (digits, an optional leading minus and an
optional decimal point — the shape Rust `Display` produces for finite
doubles). -/
def printDec (d : Dec) : String :=
  (if d.neg then "-" else "") ++
    (if 0 ≤ d.exp then toString (d.mant * 10 ^ d.exp.toNat)
     else
       let k := (-d.exp).toNat
       toString (d.mant / 10 ^ k) ++ "." ++ padZeros k (toString (d.mant % 10 ^ k)))

/-- Modelled from the spec: printing of a floating-point field (decimal
for finite values, the Rust `Display` spellings for the specials). -/
def printF64 : F64 → String
  | .finite d => printDec d
  | .posInf => "inf"
  | .negInf => "-inf"
  | .nan => "NaN"

/-- Modelled from the spec: the 13 tokens of a row in column order. -/
def rowTokens (r : Row) : List String :=
  [printU64 r.size, printU64 r.count, r.dtype, r.redop, printI64 r.root,
   printF64 r.oop_time, printF64 r.oop_alg_bw, printF64 r.oop_bus_bw,
   r.oop_num_wrong,
   printF64 r.ip_time, printF64 r.ip_alg_bw, printF64 r.ip_bus_bw,
   r.ip_num_wrong]

/-- Single-space join of a token list. -/
def joinTokens : List String → String
  | [] => ""
  | [t] => t
  | t :: ts => t ++ " " ++ joinTokens ts

/-- Character-level single-space join. -/
def joinChars : List (List Char) → List Char
  | [] => []
  | [t] => t
  | t :: ts => t ++ ' ' :: joinChars ts

/-- Modelled from the spec: the synthetic whitespace-separated line
built from the fields of a row in column order. -/
def buildLine (r : Row) : String := joinTokens (rowTokens r)

/-- A string usable as one whitespace token of a data line: nonempty,
free of whitespace (so the join re-splits into the same tokens) and of
colons (so no log-preamble substring can arise). -/
def goodToken (s : String) : Prop :=
  s.data ≠ [] ∧ ∀ c ∈ s.data, c.isWhitespace = false ∧ c ≠ ':'

instance (s : String) : Decidable (goodToken s) := by
  unfold goodToken
  infer_instance

/-- A row all of whose fields print to well-formed tokens that decode
back to the very same field values (this is what makes a `ResultRow`
valid for the round-trip property; rows with unprintable rationals,
non-finite floats, or string fields containing whitespace or colons
have no faithful 13-token rendering). -/
def ValidRow (r : Row) : Prop :=
  goodToken r.dtype ∧ goodToken r.redop ∧
  goodToken r.oop_num_wrong ∧ goodToken r.ip_num_wrong ∧
  goodToken (printU64 r.size) ∧ goodToken (printU64 r.count) ∧
  goodToken (printI64 r.root) ∧
  goodToken (printF64 r.oop_time) ∧ goodToken (printF64 r.oop_alg_bw) ∧
  goodToken (printF64 r.oop_bus_bw) ∧ goodToken (printF64 r.ip_time) ∧
  goodToken (printF64 r.ip_alg_bw) ∧ goodToken (printF64 r.ip_bus_bw) ∧
  decodeU64 (printU64 r.size) = some r.size ∧
  decodeU64 (printU64 r.count) = some r.count ∧
  decodeI64 (printI64 r.root) = some r.root ∧
  decodeF64 (printF64 r.oop_time) = some r.oop_time ∧
  decodeF64 (printF64 r.oop_alg_bw) = some r.oop_alg_bw ∧
  decodeF64 (printF64 r.oop_bus_bw) = some r.oop_bus_bw ∧
  decodeF64 (printF64 r.ip_time) = some r.ip_time ∧
  decodeF64 (printF64 r.ip_alg_bw) = some r.ip_alg_bw ∧
  decodeF64 (printF64 r.ip_bus_bw) = some r.ip_bus_bw

instance (r : Row) : Decidable (ValidRow r) := by
  unfold ValidRow
  infer_instance

/-! ### Splitting the joined line recovers the tokens -/

lemma splitWsAux_run (t : List Char) (ht : ∀ c ∈ t, c.isWhitespace = false) :
    ∀ (rest acc : List Char),
      splitWsAux (t ++ rest) acc = splitWsAux rest (t.reverse ++ acc) := by
  induction t with
  | nil => intro rest acc; simp
  | cons c t ih =>
    intro rest acc
    have hc : c.isWhitespace = false := ht c (by simp)
    show splitWsAux (c :: (t ++ rest)) acc = _
    rw [splitWsAux, if_neg (by simp [hc])]
    rw [ih (fun x hx => ht x (by simp [hx])) rest (c :: acc)]
    simp

lemma splitWsAux_join :
    ∀ (ts : List (List Char)) (t acc : List Char),
      (t ≠ [] ∧ ∀ c ∈ t, c.isWhitespace = false) →
      (∀ u ∈ ts, u ≠ [] ∧ ∀ c ∈ u, c.isWhitespace = false) →
      splitWsAux (joinChars (t :: ts)) acc = (acc.reverse ++ t) :: ts := by
  intro ts
  induction ts with
  | nil =>
    intro t acc ⟨hne, hws⟩ _
    show splitWsAux t acc = _
    rw [show t = t ++ [] by simp, splitWsAux_run t hws [] acc]
    show (if (t.reverse ++ acc).isEmpty then [] else [(t.reverse ++ acc).reverse]) = _
    rw [if_neg (by simp [hne]), List.reverse_append, List.reverse_reverse]
    simp
  | cons u us ih =>
    intro t acc ⟨hne, hws⟩ hts
    show splitWsAux (t ++ ' ' :: joinChars (u :: us)) acc = _
    rw [splitWsAux_run t hws _ acc]
    show splitWsAux (' ' :: joinChars (u :: us)) (t.reverse ++ acc) = _
    rw [splitWsAux, if_pos (by decide), if_neg (by simp [hne])]
    rw [ih u [] (hts u (by simp)) (fun v hv => hts v (by simp [hv]))]
    rw [List.reverse_append, List.reverse_reverse]
    simp

lemma stringMk_data (s : String) : String.mk s.data = s := by
  cases s
  rfl

lemma joinTokens_data :
    ∀ ts : List String, (joinTokens ts).data = joinChars (ts.map String.data) := by
  intro ts
  induction ts with
  | nil => rfl
  | cons t ts ih =>
    cases ts with
    | nil => rfl
    | cons u us =>
      show (t ++ " " ++ joinTokens (u :: us)).data = _
      rw [String.data_append, String.data_append, ih, List.append_assoc]
      rfl

lemma splitWs_joinTokens (ts : List String)
    (h : ∀ u ∈ ts, u.data ≠ [] ∧ ∀ c ∈ u.data, c.isWhitespace = false)
    (hne : ts ≠ []) :
    splitWs (joinTokens ts) = ts := by
  cases ts with
  | nil => exact absurd rfl hne
  | cons t ts =>
    unfold splitWs
    rw [joinTokens_data]
    rw [show (t :: ts).map String.data = t.data :: ts.map String.data from rfl]
    rw [splitWsAux_join (ts.map String.data) t.data [] (h t (by simp))
      (by
        intro u hu
        rcases List.mem_map.mp hu with ⟨v, hv, rfl⟩
        exact h v (by simp [hv]))]
    show String.mk t.data :: (ts.map String.data).map String.mk = t :: ts
    rw [stringMk_data, List.map_map]
    congr 1
    have : (String.mk ∘ String.data) = id := by
      funext s
      exact stringMk_data s
    rw [this, List.map_id]

/-! ### A colon-free line contains no log preamble -/

lemma mem_of_mem_dropWhile {p : Char → Bool} {x : Char} :
    ∀ {l : List Char}, x ∈ l.dropWhile p → x ∈ l := by
  intro l
  induction l with
  | nil => intro h; simp at h
  | cons c cs ih =>
    intro h
    rw [List.dropWhile_cons] at h
    split at h
    · exact List.mem_cons_of_mem c (ih h)
    · exact h

lemma matchFrom_false_of_no_colon {cs : List Char}
    (h : ∀ c ∈ cs, c ≠ ':') : matchFrom cs = false := by
  unfold matchFrom
  dsimp only
  split
  · rfl
  · split
    · next r2 heq =>
      exact absurd (h ':' (mem_of_mem_dropWhile (heq ▸ List.mem_cons_self ':' r2)))
        (by simp)
    · rfl

lemma hasPreamble_false_of_no_colon :
    ∀ {cs : List Char}, (∀ c ∈ cs, c ≠ ':') → hasPreamble cs = false := by
  intro cs
  induction cs with
  | nil => intro _; rfl
  | cons c rest ih =>
    intro h
    show (matchFrom (c :: rest) || hasPreamble rest) = false
    rw [matchFrom_false_of_no_colon h, ih (fun x hx => h x (by simp [hx]))]
    rfl

lemma mem_joinChars {c : Char} :
    ∀ ts : List (List Char), c ∈ joinChars ts → c = ' ' ∨ ∃ u ∈ ts, c ∈ u := by
  intro ts
  induction ts with
  | nil => intro h; simp [joinChars] at h
  | cons t ts ih =>
    intro h
    cases ts with
    | nil =>
      right
      exact ⟨t, by simp, by simpa [joinChars] using h⟩
    | cons u us =>
      rw [show joinChars (t :: u :: us) = t ++ ' ' :: joinChars (u :: us) from rfl] at h
      rcases List.mem_append.mp h with h1 | h1
      · right; exact ⟨t, by simp, h1⟩
      · rcases List.mem_cons.mp h1 with h2 | h2
        · left; exact h2
        · rcases ih h2 with h3 | ⟨v, hv, hcv⟩
          · left; exact h3
          · right; exact ⟨v, by simp [hv], hcv⟩

/-! ### Settling C5 -/

/-- Row whose reduction-op field is the empty string, every other field
being perfectly well formed. -/
def rowEmptyRedop : Row :=
  { size := 1048576
    count := 262144
    dtype := "float"
    redop := ""
    root := -1
    oop_time := .finite ⟨false, 123, -3⟩
    oop_alg_bw := .finite ⟨false, 456, -3⟩
    oop_bus_bw := .finite ⟨false, 789, -3⟩
    oop_num_wrong := "0"
    ip_time := .finite ⟨false, 111, -3⟩
    ip_alg_bw := .finite ⟨false, 222, -3⟩
    ip_bus_bw := .finite ⟨false, 333, -3⟩
    ip_num_wrong := "0" }

/-- C5 counterexample: for the row with an empty reduction-op token the
claim promises a data row with the sentinel `N/A`; in fact the
whitespace splitter collapses the empty token, the line has only 12
tokens, and the classifier yields ignored — the empty-string check in
src/parse.rs line 69 is unreachable because `split_whitespace` never
produces empty tokens. -/
theorem roundtrip_empty_redop_ignored :
    parse_line (buildLine rowEmptyRedop) = .ok none ∧
    parse_line (buildLine rowEmptyRedop) ≠
      .ok (some { rowEmptyRedop with redop := "N/A" }) := by
  constructor
  · decide
  · decide

/-- C5 (amended): for every valid row — one whose fields print to
nonempty, whitespace- and colon-free tokens that decode back to the
same values — the synthetic 13-token line classifies as a data row
equal to the original; a row with an empty reduction-op token instead
yields ignored (see the counterexample), so the normalization exception
of the claim never fires on synthetic lines. -/
theorem roundtrip_valid_row (r : Row) (hv : ValidRow r) :
    parse_line (buildLine r) = .ok (some r) := by
  obtain ⟨h1, h2, h3, h4, h5, h6, h7, h8, h9, h10, h11, h12, h13,
    d1, d2, d3, d4, d5, d6, d7, d8, d9⟩ := hv
  have hall : ∀ u ∈ rowTokens r, goodToken u := by
    intro u hu
    simp only [rowTokens, List.mem_cons, List.not_mem_nil, or_false] at hu
    rcases hu with rfl | rfl | rfl | rfl | rfl | rfl | rfl | rfl | rfl | rfl | rfl | rfl | rfl
    exacts [h5, h6, h1, h2, h7, h8, h9, h10, h3, h11, h12, h13, h4]
  have hsplit : splitWs (buildLine r) = rowTokens r := by
    apply splitWs_joinTokens
    · intro u hu
      rcases hall u hu with ⟨hne, hg⟩
      exact ⟨hne, fun c hc => (hg c hc).1⟩
    · simp [rowTokens]
  have hnop : hasPreamble (buildLine r).data = false := by
    apply hasPreamble_false_of_no_colon
    intro c hc
    rw [show (buildLine r).data = joinChars ((rowTokens r).map String.data)
      from joinTokens_data _] at hc
    rcases mem_joinChars _ hc with h0 | ⟨u, hu, hcu⟩
    · subst h0; decide
    · rcases List.mem_map.mp hu with ⟨v, hv, rfl⟩
      exact ((hall v hv).2 c hcu).2
  have hre : r.redop.data.isEmpty = false := by
    cases hl : r.redop.data with
    | nil => exact absurd hl h2.1
    | cons c cs => rfl
  unfold parse_line
  rw [hnop]
  simp only [Bool.false_eq_true, if_false]
  rw [hsplit]
  show parseCore (printU64 r.size) (printU64 r.count) r.dtype r.redop
    (printI64 r.root) (printF64 r.oop_time) (printF64 r.oop_alg_bw)
    (printF64 r.oop_bus_bw) r.oop_num_wrong (printF64 r.ip_time)
    (printF64 r.ip_alg_bw) (printF64 r.ip_bus_bw) r.ip_num_wrong
    = Except.ok (some r)
  rw [parseCore_eq]
  simp only [coreOpt, d1, d2, d3, d4, d5, d6, d7, d8, d9, hre,
    Bool.false_eq_true, if_false]
  rfl

/-- Well-formed concrete row for the round-trip witness. -/
def goodRow : Row :=
  { size := 1048576
    count := 262144
    dtype := "float"
    redop := "sum"
    root := -1
    oop_time := .finite ⟨false, 123, -3⟩
    oop_alg_bw := .finite ⟨false, 456, -3⟩
    oop_bus_bw := .finite ⟨false, 789, -3⟩
    oop_num_wrong := "0"
    ip_time := .finite ⟨false, 111, -3⟩
    ip_alg_bw := .finite ⟨false, 222, -3⟩
    ip_bus_bw := .finite ⟨false, 333, -3⟩
    ip_num_wrong := "0" }

/-- Witness for the amended C5 at a concrete valid row. -/
theorem roundtrip_valid_row_witness :
    ValidRow goodRow ∧ parse_line (buildLine goodRow) = .ok (some goodRow) :=
  ⟨by decide, roundtrip_valid_row goodRow (by decide)⟩

end NcclHarness
